import Mathlib

/-!
Verification of the terminal-bridge core of SparkApp (src/main.py) against its
natural-language specification.  The embedding below models, faithfully to the
Python source:

* TerminalOutputReader.read_output (src/main.py lines 32-50): the pump-worker
  loop over the master descriptor, with the running flag, select timeout,
  os.read + decode, the combined except (OSError, UnicodeDecodeError) handler
  and its break;
* TerminalEmulator.execute_command (lines 162-176): echo, single os.write of
  command plus newline, input clearing, and the except OSError handler;
* TerminalEmulator.cleanup (lines 178-197): stop flag, terminate/wait/kill
  with the caught TimeoutExpired, and the try os.close with OSError swallowed;
* TerminalEmulator.start_shell (lines 114-145): openpty, Popen, close of the
  slave descriptor, daemon thread start, and the blanket except handler;
* the Qt queued signal connection from the worker thread to the GUI thread,
  modelled as a FIFO hand-off queue.
-/

/-- One event observed by an iteration of the worker loop: the select call
times out, os.read returns bytes that decode to the string s, os.read returns
bytes whose decode raises UnicodeDecodeError (carrying the str of the
exception), or select or os.read raises OSError (carrying the str of the
exception). -/
inductive ReadEvent
  | timeout
  | data (s : String)
  | badBytes (desc : String)
  | oserr (desc : String)
deriving DecidableEq

/-- One iteration of the worker loop of read_output.  Because stop may run
concurrently on another thread, the value of the running flag is recorded
separately at the two points the Python code reads it: the while condition at
the top, and the if inside the except handler. -/
structure IterInput where
  runningAtTop : Bool
  event : ReadEvent
  runningAtHandler : Bool
deriving DecidableEq

/-- How the modelled worker loop ended over a finite event trace. -/
inductive LoopExit
  | flagCleared
  | errorBreak
  | traceEnded
deriving DecidableEq

/-- The diagnostic string emitted by the except handler of read_output
(src/main.py line 49). -/
def errorChunk (msg : String) : String :=
  "\nError reading output: " ++ msg ++ "\n"

/-- TerminalOutputReader.read_output (src/main.py lines 32-50) as a function of
the finite trace of per-iteration events.  Output: the strings emitted through
the outputReceived signal, in order, and how the loop ended.  A timeout skips
the read; decoded data is emitted and the loop continues; a
UnicodeDecodeError or OSError reaches the except handler, which emits the
diagnostic only when the running flag is still set and then executes break in
either case. -/
def read_output : List IterInput → List String × LoopExit
  | [] => ([], LoopExit.traceEnded)
  | i :: rest =>
    if i.runningAtTop then
      match i.event with
      | ReadEvent.timeout => read_output rest
      | ReadEvent.data s =>
        ((s :: (read_output rest).1), (read_output rest).2)
      | ReadEvent.badBytes d =>
        ((if i.runningAtHandler then [errorChunk d] else []), LoopExit.errorBreak)
      | ReadEvent.oserr d =>
        ((if i.runningAtHandler then [errorChunk d] else []), LoopExit.errorBreak)
    else ([], LoopExit.flagCleared)

/-- State of the cross-thread hand-off from the worker to the GUI thread.  The
outputReceived signal with a queued (cross-thread) connection posts each
emitted string to the receiver thread in FIFO order; produced records every
string the worker has emitted, queue the posted-but-unprocessed ones, and
delivered the ones the GUI slot has consumed. -/
structure DispState where
  queue : List String
  delivered : List String
  produced : List String
deriving DecidableEq

/-- An atomic event of the hand-off: the worker emits (enqueues) a chunk, or
the GUI event loop processes (delivers) the oldest pending chunk. -/
inductive DispatchOp
  | enqueue (c : String)
  | deliver
deriving DecidableEq

/-- One step of the FIFO hand-off.  Delivery on an empty queue is a no-op. -/
def dispatchStep (s : DispState) : DispatchOp → DispState
  | DispatchOp.enqueue c =>
    { s with queue := s.queue ++ [c], produced := s.produced ++ [c] }
  | DispatchOp.deliver =>
    match s.queue with
    | [] => s
    | c :: q =>
      { queue := q, delivered := s.delivered ++ [c], produced := s.produced }

/-- Run a sequence of hand-off events from the empty initial state. -/
def runDispatch (ops : List DispatchOp) : DispState :=
  ops.foldl dispatchStep ⟨[], [], []⟩

/-- The enqueue events corresponding to a chunk sequence, in order: the single
pump worker emits its chunks sequentially. -/
def enqueueOps (cs : List String) : List DispatchOp :=
  cs.map DispatchOp.enqueue

/-- The chunks enqueued by an event sequence, in order. -/
def enqueuedOf : List DispatchOp → List String
  | [] => []
  | DispatchOp.enqueue c :: rest => c :: enqueuedOf rest
  | DispatchOp.deliver :: rest => enqueuedOf rest

/-- zs is an interleaving of xs and ys: it contains both as subsequences, each
in its original order, and nothing else.  Used to quantify over all ways two
concurrent step sequences can be scheduled. -/
inductive Interleaving {α : Type} : List α → List α → List α → Prop
  | nil : Interleaving [] [] []
  | left {x : α} {xs ys zs : List α} :
      Interleaving xs ys zs → Interleaving (x :: xs) ys (x :: zs)
  | right {y : α} {xs ys zs : List α} :
      Interleaving xs ys zs → Interleaving xs (y :: ys) (y :: zs)

/-- Observable state of the TerminalEmulator widget relevant to
execute_command: whether self.master_fd is still open, the strings appended to
the terminal_output display, the payloads successfully written to the master
descriptor, and the text of command_input. -/
structure TermState where
  fdOpen : Bool
  outputLines : List String
  writes : List String
  inputText : String
deriving DecidableEq

/-- os.write on the master descriptor: succeeds while the descriptor is open,
raises OSError (Errno 9, as after cleanup has closed it) otherwise. -/
def osWrite (fdOpen : Bool) (_payload : String) : Except String Unit :=
  if fdOpen then Except.ok () else Except.error "[Errno 9] Bad file descriptor"

/-- Truth of the Python test command.strip(): str.strip removes leading and
trailing whitespace, so the stripped string is falsy (empty) exactly when
every character of the line is whitespace. -/
def stripEmpty (s : String) : Bool :=
  s.data.all Char.isWhitespace

/-- TerminalEmulator.execute_command (src/main.py lines 162-176).  Reads the
input line; when its strip is empty nothing at all happens; otherwise the echo
line is appended to the display, one os.write of the text plus newline is
attempted, and on success the input line is cleared, while an OSError is
caught and appended to the display as an error line (leaving the input line
uncleared, since the clear is after the write inside the try block). -/
def execute_command (s : TermState) : TermState :=
  let command := s.inputText
  if stripEmpty command then s
  else
    let s1 : TermState :=
      { s with outputLines := s.outputLines ++ ["$ " ++ command] }
    match osWrite s1.fdOpen (command ++ "\n") with
    | Except.ok _ =>
      { s1 with writes := s1.writes ++ [command ++ "\n"], inputText := "" }
    | Except.error e =>
      { s1 with outputLines :=
          s1.outputLines ++ ["\nError executing command: " ++ e ++ "\n"] }

/-- The primitive observable actions TerminalEmulator.cleanup can perform, in
the vocabulary of the specification.  joinWorker (a reader_thread.join call)
is in the vocabulary so its absence from the trace can be stated; the Python
method never performs it. -/
inductive CleanupAct
  | setRunningFalse
  | terminateChild
  | waitChild
  | killChild
  | tryCloseMaster
  | joinWorker
deriving DecidableEq

/-- shell_process.wait with timeout 1 (src/main.py line 189): returns normally
when the child exits within the grace period, raises TimeoutExpired
otherwise. -/
def childWait (exitsInGrace : Bool) : Except String Unit :=
  if exitsInGrace then Except.ok () else Except.error "TimeoutExpired"

/-- The child-termination phase of cleanup (src/main.py lines 186-191):
terminate, then wait with a one-second timeout; the except
subprocess.TimeoutExpired handler responds with kill.  The phase is total:
the TimeoutExpired raised by the wait is consumed here and nothing
propagates. -/
def terminatePhase (exitsInGrace : Bool) : List CleanupAct :=
  [CleanupAct.terminateChild, CleanupAct.waitChild] ++
    (match childWait exitsInGrace with
     | Except.ok _ => []
     | Except.error _ => [CleanupAct.killChild])

/-- Which of the three attributes the hasattr guards of cleanup find present.
A session whose start_shell succeeded has all three. -/
structure EmuAttrs where
  hasOutputReader : Bool
  hasShellProcess : Bool
  hasMasterFd : Bool
deriving DecidableEq

/-- TerminalEmulator.cleanup (src/main.py lines 178-197) as the ordered trace
of observable actions it performs: stop the reader (set running to False) when
the reader exists, run the terminate/wait/kill phase when the process handle
exists, then attempt os.close on the master descriptor inside a try whose
except OSError handler is pass. -/
def cleanup (a : EmuAttrs) (exitsInGrace : Bool) : List CleanupAct :=
  (if a.hasOutputReader then [CleanupAct.setRunningFalse] else []) ++
  (if a.hasShellProcess then terminatePhase exitsInGrace else []) ++
  (if a.hasMasterFd then [CleanupAct.tryCloseMaster] else [])

/-- The attribute state of a session on which start_shell succeeded. -/
def startedAttrs : EmuAttrs := ⟨true, true, true⟩

/-- State of the master descriptor as the OS sees it: whether the descriptor
number is currently open, and how many close calls on it have succeeded. -/
structure FdState where
  isOpen : Bool
  closedCount : Nat
deriving DecidableEq

/-- os.close: on an open descriptor it closes it and succeeds; on an already
closed descriptor it raises OSError (EBADF). -/
def osClose (f : FdState) : Except String FdState :=
  if f.isOpen then Except.ok ⟨false, f.closedCount + 1⟩
  else Except.error "[Errno 9] Bad file descriptor"

/-- Shared session state acted on by (possibly concurrent) cleanup calls. -/
structure ShState where
  running : Bool
  childAlive : Bool
  fd : FdState
deriving DecidableEq

/-- The atomic statements of one cleanup invocation, at the granularity at
which two concurrent invocations can interleave: clear the running flag,
terminate the child and wait (kill on timeout; terminate and wait on an
already dead child return without effect, and the TimeoutExpired is caught),
and the guarded close, whose OSError is caught by the except ... pass. -/
inductive CStep
  | stopFlag
  | termWait (exitsInGrace : Bool)
  | closeStep
deriving DecidableEq

/-- Effect of one cleanup statement on the shared session state.  closeStep is
the try os.close / except OSError pass of src/main.py lines 193-197: the
error branch of osClose is consumed and the state is left unchanged. -/
def applyCStep (s : ShState) : CStep → ShState
  | CStep.stopFlag => { s with running := false }
  | CStep.termWait _ => { s with childAlive := false }
  | CStep.closeStep =>
    match osClose s.fd with
    | Except.ok f2 => { s with fd := f2 }
    | Except.error _ => s

/-- Run a schedule of cleanup statements over the shared state. -/
def runSteps (s : ShState) (t : List CStep) : ShState :=
  t.foldl applyCStep s

/-- The statement sequence of a single cleanup invocation. -/
def cleanupSteps (exitsInGrace : Bool) : List CStep :=
  [CStep.stopFlag, CStep.termWait exitsInGrace, CStep.closeStep]

/-- The session state just before cleanup runs on a started session: worker
flag set, child alive, master descriptor open and never closed. -/
def startedSession : ShState := ⟨true, true, ⟨true, 0⟩⟩

/-- Where TerminalEmulator.start_shell (src/main.py lines 114-145) can fail:
pty.openpty raises, subprocess.Popen raises (carrying the str of the
exception, e.g. for a non-existent executable), or everything succeeds. -/
inductive SpawnOutcome
  | openptyFails
  | popenFails (msg : String)
  | ok
deriving DecidableEq

/-- The resources and report left behind by one start_shell call: pty
descriptors still open in this process, worker threads started, child
processes spawned, and the message of the critical dialog if one was shown. -/
structure StartResult where
  ptyFdsOpen : Nat
  workerThreads : Nat
  childProcs : Nat
  errorReported : Option String
deriving DecidableEq

/-- TerminalEmulator.start_shell (src/main.py lines 114-145).  The whole body
is one try; the except Exception handler only shows a critical message box.
If openpty raises, nothing was allocated.  If Popen raises, the two pty
descriptors from openpty are already open and the handler closes neither of
them (os.close(slave_fd) is later in the try body, and no close of master_fd
exists on this path), so both stay open; no thread was started and no child
spawned.  On success the slave side is closed, the master kept, the daemon
reader thread started and the child running. -/
def start_shell : SpawnOutcome → StartResult
  | SpawnOutcome.openptyFails =>
    { ptyFdsOpen := 0, workerThreads := 0, childProcs := 0,
      errorReported := some "Failed to start terminal: openpty failed" }
  | SpawnOutcome.popenFails msg =>
    { ptyFdsOpen := 2, workerThreads := 0, childProcs := 0,
      errorReported := some ("Failed to start terminal: " ++ msg) }
  | SpawnOutcome.ok =>
    { ptyFdsOpen := 1, workerThreads := 1, childProcs := 1,
      errorReported := none }

/-! Helper lemmas shared by several claims. -/

/-- Membership in the first component of an interleaving carries over to the
interleaved schedule. -/
theorem interleaving_mem_left {α : Type} {xs ys zs : List α}
    (h : Interleaving xs ys zs) : ∀ a : α, a ∈ xs → a ∈ zs := by
  induction h with
  | nil => intro a ha; cases ha
  | left _ ih =>
    intro a ha
    cases ha with
    | head => exact List.mem_cons_self _ _
    | tail _ h2 => exact List.mem_cons_of_mem _ (ih a h2)
  | right _ ih =>
    intro a ha
    exact List.mem_cons_of_mem _ (ih a ha)

/-- Once the master descriptor is closed, no later cleanup statement changes
its state: stopFlag and termWait do not touch it, and closeStep hits the
OSError branch of osClose, which the except handler turns into a no-op. -/
theorem runSteps_fd_frozen (t : List CStep) : ∀ s : ShState,
    s.fd.isOpen = false → (runSteps s t).fd = s.fd := by
  induction t with
  | nil => intro s _; rfl
  | cons c t ih =>
    intro s h
    have hstep : (applyCStep s c).fd = s.fd := by
      cases c with
      | stopFlag => rfl
      | termWait b => rfl
      | closeStep => simp [applyCStep, osClose, h]
    show (runSteps (applyCStep s c) t).fd = s.fd
    rw [ih (applyCStep s c) (by rw [hstep]; exact h), hstep]

/-- If the descriptor is open and some statement of the schedule is the
guarded close, then after the whole schedule the descriptor is closed and its
successful-close count has gone up by exactly one: the first closeStep
succeeds, every later closeStep raises EBADF into the except handler. -/
theorem runSteps_close_once (t : List CStep) : ∀ s : ShState,
    s.fd.isOpen = true → CStep.closeStep ∈ t →
    (runSteps s t).fd = ⟨false, s.fd.closedCount + 1⟩ := by
  induction t with
  | nil => intro s _ hm; cases hm
  | cons c t ih =>
    intro s h hm
    by_cases hc : c = CStep.closeStep
    · subst hc
      have hfd : (applyCStep s CStep.closeStep).fd = ⟨false, s.fd.closedCount + 1⟩ := by
        simp [applyCStep, osClose, h]
      have hfrozen := runSteps_fd_frozen t (applyCStep s CStep.closeStep) (by rw [hfd])
      show (runSteps (applyCStep s CStep.closeStep) t).fd = _
      rw [hfrozen, hfd]
    · have hfd : (applyCStep s c).fd = s.fd := by
        cases c with
        | stopFlag => rfl
        | termWait b => rfl
        | closeStep => exact absurd rfl hc
      have hm2 : CStep.closeStep ∈ t := by
        cases hm with
        | head => exact absurd rfl hc
        | tail _ h2 => exact h2
      show (runSteps (applyCStep s c) t).fd = _
      rw [ih (applyCStep s c) (by rw [hfd]; exact h) hm2, hfd]

/-- FIFO invariant of the hand-off: what the worker has produced is what has
been delivered followed by what is still queued. -/
theorem dispatch_inv (ops : List DispatchOp) : ∀ s : DispState,
    s.delivered ++ s.queue = s.produced →
    (ops.foldl dispatchStep s).delivered ++ (ops.foldl dispatchStep s).queue =
      (ops.foldl dispatchStep s).produced := by
  induction ops with
  | nil => intro s h; exact h
  | cons op ops ih =>
    intro s h
    show (ops.foldl dispatchStep (dispatchStep s op)).delivered ++ _ = _
    apply ih
    obtain ⟨qs, ds, ps⟩ := s
    cases op with
    | enqueue c =>
      simp only [dispatchStep] at h ⊢
      rw [← List.append_assoc, h]
    | deliver =>
      cases qs with
      | nil => exact h
      | cons c q =>
        simp only [dispatchStep] at h ⊢
        rw [List.append_assoc]
        exact h

/-- The produced sequence after a schedule is the initial one followed by the
enqueued chunks of the schedule, in schedule order. -/
theorem dispatch_produced (ops : List DispatchOp) : ∀ s : DispState,
    (ops.foldl dispatchStep s).produced = s.produced ++ enqueuedOf ops := by
  induction ops with
  | nil => intro s; simp [enqueuedOf]
  | cons op ops ih =>
    intro s
    obtain ⟨qs, ds, ps⟩ := s
    cases op with
    | enqueue c =>
      show (ops.foldl dispatchStep _).produced = _
      rw [ih]
      simp [dispatchStep, enqueuedOf]
    | deliver =>
      cases qs with
      | nil =>
        show (ops.foldl dispatchStep _).produced = _
        rw [ih]
        simp [dispatchStep, enqueuedOf]
      | cons c q =>
        show (ops.foldl dispatchStep _).produced = _
        rw [ih]
        simp [dispatchStep, enqueuedOf]

/-- In any schedule interleaving the enqueues of a chunk sequence with
delivery events, the enqueued chunks appear exactly in sequence order. -/
theorem enqueuedOf_interleave {xs ys ops : List DispatchOp}
    (h : Interleaving xs ys ops) :
    ∀ (cs : List String) (n : Nat), xs = enqueueOps cs →
      ys = List.replicate n DispatchOp.deliver → enqueuedOf ops = cs := by
  induction h with
  | nil =>
    intro cs n hx _
    cases cs with
    | nil => rfl
    | cons c cs => simp [enqueueOps] at hx
  | left _ ih =>
    intro cs n hx hy
    cases cs with
    | nil => simp [enqueueOps] at hx
    | cons c cs =>
      simp only [enqueueOps, List.map_cons, List.cons.injEq] at hx
      obtain ⟨hx1, hx2⟩ := hx
      subst hx1
      show enqueuedOf (DispatchOp.enqueue c :: _) = _
      simp only [enqueuedOf, List.cons.injEq, true_and]
      exact ih cs n hx2 hy
  | right _ ih =>
    intro cs n hx hy
    cases n with
    | zero => simp [List.replicate] at hy
    | succ m =>
      simp only [List.replicate, List.cons.injEq] at hy
      obtain ⟨hy1, hy2⟩ := hy
      subst hy1
      show enqueuedOf (DispatchOp.deliver :: _) = _
      simp only [enqueuedOf]
      exact ih cs m hx hy2

/-! Claim theorems. -/

/-- Claim C1, counterexample.  The claim says a decode failure never
terminates the worker loop and subsequent bytes are still processed.  On the
concrete trace where a UnicodeDecodeError is followed by readable data, the
code emits the diagnostic and then executes break: the loop ends with
errorBreak and the subsequent data chunk is never emitted. -/
theorem decode_failure_claim_refuted :
    (read_output [⟨true, ReadEvent.badBytes "invalid start byte", true⟩,
      ⟨true, ReadEvent.data "after", true⟩]).2 = LoopExit.errorBreak ∧
    "after" ∉ (read_output [⟨true, ReadEvent.badBytes "invalid start byte", true⟩,
      ⟨true, ReadEvent.data "after", true⟩]).1 := by decide

/-- Claim C1, amended.  A byte sequence that fails decoding makes the worker
emit one diagnostic chunk (when the running flag is still set at the handler)
and then terminate its loop via break; whatever events follow are never
processed. -/
theorem decode_failure_emits_chunk_then_breaks (d : String) (hflag : Bool)
    (rest : List IterInput) :
    read_output (⟨true, ReadEvent.badBytes d, hflag⟩ :: rest) =
      ((if hflag then [errorChunk d] else []), LoopExit.errorBreak) := rfl

/-- Claim C2, counterexample.  The claim requires the pump worker to be joined
before the master descriptor is closed.  The cleanup of a started session
attempts the close but performs no join at all, so the close is not preceded
by a join. -/
theorem close_without_join_refutes_claim :
    CleanupAct.tryCloseMaster ∈ cleanup startedAttrs true ∧
    CleanupAct.joinWorker ∉ cleanup startedAttrs true := by decide

/-- Claim C2, amended.  For either grace-period outcome, cleanup on a started
session attempts the close of the master descriptor exactly once, clears the
running flag before that close, but never joins the worker thread, so the
descriptor can be closed while the worker is still inside a read. -/
theorem cleanup_signals_then_closes_without_join (b : Bool) :
    (cleanup startedAttrs b).count CleanupAct.tryCloseMaster = 1 ∧
    CleanupAct.joinWorker ∉ cleanup startedAttrs b ∧
    (cleanup startedAttrs b).indexOf CleanupAct.setRunningFalse <
      (cleanup startedAttrs b).indexOf CleanupAct.tryCloseMaster := by
  cases b <;> decide

/-- Claim C3.  Under every schedule interleaving the statements of two
cleanup invocations (covering a second sequential call and a concurrent one,
for any grace-period outcomes), the master descriptor of a started session
ends closed, and exactly one close call succeeded: the later close raises
EBADF, which the except OSError pass handler of cleanup swallows, so no
statement faults and no descriptor is double-closed. -/
theorem cleanup_twice_closes_once (b1 b2 : Bool) (t : List CStep)
    (h : Interleaving (cleanupSteps b1) (cleanupSteps b2) t) :
    (runSteps startedSession t).fd.closedCount = 1 ∧
    (runSteps startedSession t).fd.isOpen = false := by
  have hm : CStep.closeStep ∈ t :=
    interleaving_mem_left h CStep.closeStep (by simp [cleanupSteps])
  have hc := runSteps_close_once t startedSession rfl hm
  rw [hc]
  exact ⟨rfl, rfl⟩

/-- Claim C3, witness.  The sequential schedule that runs one full cleanup
and then a second one is an interleaving of the two statement sequences, and
on it the theorem yields a descriptor closed exactly once. -/
theorem cleanup_twice_closes_once_witness :
    (runSteps startedSession (cleanupSteps true ++ cleanupSteps true)).fd.closedCount = 1 ∧
    (runSteps startedSession (cleanupSteps true ++ cleanupSteps true)).fd.isOpen = false :=
  cleanup_twice_closes_once true true (cleanupSteps true ++ cleanupSteps true)
    (Interleaving.left (Interleaving.left (Interleaving.left
      (Interleaving.right (Interleaving.right (Interleaving.right Interleaving.nil))))))

/-- Claim C4, counterexample.  The claim requires that a failed start releases
the already-allocated pty descriptors.  When Popen raises (a non-existent
executable), the except handler of start_shell only shows the error dialog:
both pty descriptors from openpty remain open. -/
theorem spawn_failure_leaks_descriptors :
    (start_shell (SpawnOutcome.popenFails
      "[Errno 2] No such file or directory")).ptyFdsOpen = 2 ∧
    ((start_shell (SpawnOutcome.popenFails
      "[Errno 2] No such file or directory")).errorReported).isSome = true := by
  decide

/-- Claim C4, amended.  A start attempt on which the process spawn raises
reports the failure and leaves zero worker threads and zero child processes,
but does not release the two already-allocated pty descriptors. -/
theorem spawn_failure_reports_and_leaves_no_worker (msg : String) :
    (start_shell (SpawnOutcome.popenFails msg)).errorReported =
      some ("Failed to start terminal: " ++ msg) ∧
    (start_shell (SpawnOutcome.popenFails msg)).workerThreads = 0 ∧
    (start_shell (SpawnOutcome.popenFails msg)).childProcs = 0 ∧
    (start_shell (SpawnOutcome.popenFails msg)).ptyFdsOpen = 2 :=
  ⟨rfl, rfl, rfl, rfl⟩

/-- Claim C5.  Submitting a non-blank command while the master descriptor is
closed (as after stop has completed) does not raise to the caller: the
OSError of the write is caught and rendered into the output display as an
error line after the echoed command; nothing is written and the input line is
left as it was. -/
theorem write_failure_reported_as_chunk (s : TermState)
    (hclosed : s.fdOpen = false) (hcmd : stripEmpty s.inputText = false) :
    (execute_command s).outputLines =
      s.outputLines ++ ["$ " ++ s.inputText,
        "\nError executing command: [Errno 9] Bad file descriptor\n"] ∧
    (execute_command s).writes = s.writes ∧
    (execute_command s).inputText = s.inputText := by
  simp [execute_command, osWrite, hclosed, hcmd]

/-- Claim C5, witness.  A concrete closed-descriptor session with the command
text ls: the submit yields the error line and no write. -/
theorem write_failure_reported_as_chunk_witness :
    stripEmpty "ls" = false ∧
    ((execute_command ⟨false, [], [], "ls"⟩).outputLines =
      ([] : List String) ++ ["$ " ++ "ls",
        "\nError executing command: [Errno 9] Bad file descriptor\n"] ∧
    (execute_command ⟨false, [], [], "ls"⟩).writes = ([] : List String) ∧
    (execute_command ⟨false, [], [], "ls"⟩).inputText = "ls") :=
  ⟨by decide, write_failure_reported_as_chunk ⟨false, [], [], "ls"⟩ rfl (by decide)⟩

/-- Claim C6.  During cleanup of a started session the child is first sent the
graceful terminate; the kill appears in the action trace exactly when the
child does not exit within the grace period, and then only after the
terminate; the TimeoutExpired raised by the wait is consumed inside
terminatePhase, so the escalation never leaves cleanup. -/
theorem graceful_then_forced_termination :
    CleanupAct.terminateChild ∈ cleanup startedAttrs true ∧
    CleanupAct.killChild ∉ cleanup startedAttrs true ∧
    CleanupAct.killChild ∈ cleanup startedAttrs false ∧
    (cleanup startedAttrs false).indexOf CleanupAct.terminateChild <
      (cleanup startedAttrs false).indexOf CleanupAct.killChild := by
  decide

/-- Claim C7, counterexample.  The claim says every submitted command line
results in exactly one write.  Submitting the empty line performs no write at
all: the strip test of execute_command skips the whole body. -/
theorem blank_submission_performs_no_write :
    (execute_command ⟨true, [], [], ""⟩).writes = [] ∧
    ¬ ((execute_command ⟨true, [], [], ""⟩).writes.length = 1) := by decide

/-- Claim C7, amended.  For every submitted line that is non-blank after
stripping, on an open descriptor, exactly one newline terminator is appended
to the text and exactly one write of the resulting payload is performed, with
no buffering across submissions; the input line is then cleared. -/
theorem nonblank_command_single_write (s : TermState)
    (hopen : s.fdOpen = true) (hcmd : stripEmpty s.inputText = false) :
    (execute_command s).writes = s.writes ++ [s.inputText ++ "\n"] ∧
    (execute_command s).inputText = "" := by
  simp [execute_command, osWrite, hopen, hcmd]

/-- Claim C7, witness.  Submitting ls on an open session appends exactly the
payload ls plus newline to the write sequence. -/
theorem nonblank_command_single_write_witness :
    stripEmpty "ls" = false ∧
    ((execute_command ⟨true, [], [], "ls"⟩).writes =
      ([] : List String) ++ ["ls" ++ "\n"] ∧
    (execute_command ⟨true, [], [], "ls"⟩).inputText = "") :=
  ⟨by decide, nonblank_command_single_write ⟨true, [], [], "ls"⟩ rfl (by decide)⟩

/-- Claim C8.  For any worker trace and any schedule that interleaves the
enqueues of the chunks the pump produced (in production order, as the single
worker emits them sequentially) with deliveries to the consumer, the sequence
the consumer has observed is an initial segment of the produced sequence: the
FIFO hand-off never reorders chunks. -/
theorem chunks_delivered_in_order (t : List IterInput) (n : Nat)
    (ops : List DispatchOp)
    (h : Interleaving (enqueueOps (read_output t).1)
      (List.replicate n DispatchOp.deliver) ops) :
    ∃ pending : List String,
      (read_output t).1 = (runDispatch ops).delivered ++ pending := by
  refine ⟨(runDispatch ops).queue, ?_⟩
  have hinv := dispatch_inv ops ⟨[], [], []⟩ rfl
  have hprod := dispatch_produced ops ⟨[], [], []⟩
  have henq := enqueuedOf_interleave h (read_output t).1 n rfl rfl
  simp only [List.nil_append] at hprod
  calc (read_output t).1 = enqueuedOf ops := henq.symm
    _ = (runDispatch ops).produced := hprod.symm
    _ = (runDispatch ops).delivered ++ (runDispatch ops).queue := hinv.symm

/-- Claim C8, witness.  One chunk read, enqueued and then delivered: the
consumer observes it, an initial segment of the produced sequence. -/
theorem chunks_delivered_in_order_witness :
    ∃ pending : List String,
      (read_output [⟨true, ReadEvent.data "a", true⟩]).1 =
        (runDispatch [DispatchOp.enqueue "a", DispatchOp.deliver]).delivered ++ pending :=
  chunks_delivered_in_order [⟨true, ReadEvent.data "a", true⟩] 1
    [DispatchOp.enqueue "a", DispatchOp.deliver]
    (Interleaving.left (Interleaving.right Interleaving.nil))

/-- Claim C9.  Submitting a line that is empty or whitespace-only is a
complete no-op: the strip test fails, so no byte is written, nothing is
echoed to the display and the input line is not cleared — the whole widget
state is unchanged. -/
theorem blank_command_is_noop (s : TermState)
    (h : stripEmpty s.inputText = true) :
    execute_command s = s := by
  simp [execute_command, h]

/-- Claim C9, witness.  A single-space input line on an open session leaves
the state untouched. -/
theorem blank_command_is_noop_witness :
    stripEmpty " " = true ∧
    execute_command ⟨true, [], [], " "⟩ = ⟨true, [], [], " "⟩ :=
  ⟨by decide, blank_command_is_noop ⟨true, [], [], " "⟩ (by decide)⟩

/-- Claim C10.  When an OS read error reaches the except handler after the
running flag was cleared, the worker emits nothing and terminates silently;
with the flag still set it emits exactly the diagnostic chunk.  In both cases
the loop ends with break. -/
theorem late_read_error_is_silent (d : String) (rest : List IterInput) :
    read_output (⟨true, ReadEvent.oserr d, false⟩ :: rest) =
      ([], LoopExit.errorBreak) ∧
    read_output (⟨true, ReadEvent.oserr d, true⟩ :: rest) =
      ([errorChunk d], LoopExit.errorBreak) :=
  ⟨rfl, rfl⟩
